import Mathlib

/-
Verification of the selector validation, repair, robustness and
orchestration core of the storms repository.

The Python sources under src/backend are embedded shallowly:
pure string functions become Lean functions on String / List Char,
regular-expression searches are embedded as equivalent explicit
character scanners (each scanner's doc comment names the pattern it
embeds), fallible code returns Except, and floating-point confidence
arithmetic is embedded over Rat (all confidence comparisons made by the
claims are exact at the values the code produces, so no rounding issue
is hidden by this choice).

External collaborators (the headless browser, the HTTP fetch, the
text-generation service, the optional lxml compiler and the BeautifulSoup
mutation engine) are modelled as explicit parameters or outcome oracles,
as the spec's section 6 prescribes.
-/

/-! ## Basic character / string helpers (Python semantics) -/

/-- Python whitespace class for str.strip and regex backslash-s. -/
def isPySpace (c : Char) : Bool :=
  c = ' ' || c = '\t' || c = '\n' || c = '\r' || c = '\x0b' || c = '\x0c'

/-- Python regex word character class (ASCII). -/
def isWordChar (c : Char) : Bool := c.isAlpha || c.isDigit || c = '_'

/-- Python str.strip(). -/
def pyStrip (s : String) : String :=
  String.mk (((s.toList.dropWhile isPySpace).reverse.dropWhile isPySpace).reverse)

/-- List form of str.endswith. -/
def endsWithList (s suf : List Char) : Bool := suf.reverse.isPrefixOf s.reverse

/-- Python str.endswith. -/
def strEndsWith (s suf : String) : Bool := endsWithList s.toList suf.toList

/-- Python substring containment (the in operator on str). -/
def hasInfix (hay needle : List Char) : Bool :=
  needle.isPrefixOf hay ||
    match hay with
    | [] => false
    | _ :: t => hasInfix t needle

/-- String wrapper for hasInfix. -/
def strHasInfix (hay needle : String) : Bool := hasInfix hay.toList needle.toList

/-- Python str.count for a two-character pattern (non-overlapping, left to right). -/
def countPairSub (a b : Char) : List Char → Nat
  | [] => 0
  | [_] => 0
  | x :: y :: t =>
    if x = a ∧ y = b then 1 + countPairSub a b t else countPairSub a b (y :: t)

/-- Python str.lower (ASCII inputs). -/
def lowerStr (s : String) : String := String.mk (s.toList.map Char.toLower)

/-- Drop leading Python whitespace. -/
def dropWs (l : List Char) : List Char := l.dropWhile isPySpace

/-! ## src/backend/utils/xpath_utils.py -/

/-- One entry of the issue list returned by find_unmatched_chars:
the Python dict with keys type, char, missing_count. -/
structure DelimIssue where
  issueType : String
  ch : Char
  missingCount : Nat
deriving DecidableEq, Repr

/-- Embeds find_unmatched_chars from src/backend/utils/xpath_utils.py:
for each (open, close) pair, compares raw character counts
(count_balanced_chars) and reports a missing_closing or missing_opening
issue when they differ. -/
def find_unmatched_chars (text : String) (pairs : List (Char × Char)) : List DelimIssue :=
  pairs.flatMap (fun p =>
    let oc := text.toList.count p.1
    let cc := text.toList.count p.2
    if oc = cc then []
    else if cc < oc then [⟨"missing_closing", p.2, oc - cc⟩]
    else [⟨"missing_opening", p.1, cc - oc⟩])

/-- C7: find_unmatched_chars reports zero issues iff, for each tracked pair,
the count of the open character equals the count of the close character;
when the counts differ it reports missing_closing with deficit
open-count minus close-count if open exceeds close, and missing_opening
with deficit close-count minus open-count otherwise. -/
theorem claim_C7 (text : String) (pairs : List (Char × Char)) :
    (find_unmatched_chars text pairs = [] ↔
      ∀ p ∈ pairs, text.toList.count p.1 = text.toList.count p.2) ∧
    (∀ o c, (o, c) ∈ pairs →
      (text.toList.count c < text.toList.count o →
        (⟨"missing_closing", c, text.toList.count o - text.toList.count c⟩ : DelimIssue)
          ∈ find_unmatched_chars text pairs) ∧
      (text.toList.count o < text.toList.count c →
        (⟨"missing_opening", o, text.toList.count c - text.toList.count o⟩ : DelimIssue)
          ∈ find_unmatched_chars text pairs)) := by
  constructor
  · induction pairs with
    | nil => simp [find_unmatched_chars]
    | cons hd tl ih =>
      simp only [find_unmatched_chars, List.flatMap_cons, List.append_eq_nil,
        List.mem_cons, forall_eq_or_imp] at ih ⊢
      constructor
      · rintro ⟨h1, h2⟩
        refine ⟨?_, ih.mp h2⟩
        by_contra hne
        rw [if_neg hne] at h1
        split at h1 <;> simp at h1
      · rintro ⟨h1, h2⟩
        exact ⟨by rw [if_pos h1], ih.mpr h2⟩
  · intro o c hmem
    constructor
    · intro hlt
      induction pairs with
      | nil => simp at hmem
      | cons hd tl ih =>
        simp only [find_unmatched_chars, List.flatMap_cons, List.mem_append]
        rcases List.mem_cons.mp hmem with heq | htl
        · left
          subst heq
          simp only
          rw [if_neg (by omega), if_pos hlt]
          simp
        · right
          exact ih htl
    · intro hlt
      induction pairs with
      | nil => simp at hmem
      | cons hd tl ih =>
        simp only [find_unmatched_chars, List.flatMap_cons, List.mem_append]
        rcases List.mem_cons.mp hmem with heq | htl
        · left
          subst heq
          simp only
          rw [if_neg (by omega), if_neg (by omega)]
          simp
        · right
          exact ih htl

/-- Witness for C7 at a concrete input: the string with one unmatched
opening bracket yields a missing_closing issue with deficit 1. -/
theorem claim_C7_witness :
    (⟨"missing_closing", ']', 1⟩ : DelimIssue)
      ∈ find_unmatched_chars "//a[b" [('[', ']')] := by
  have h := (claim_C7 "//a[b" [('[', ']')]).2 '[' ']' (by decide)
  exact h.1 (by decide)

/-! ## Selector primitives: function extraction and complexity scoring -/

/-- Start character of the identifier class [a-zA-Z_][a-zA-Z0-9_]* used by
extract_xpath_functions. -/
def isIdentStart (c : Char) : Bool := c.isAlpha || c = '_'

/-- Fueled scan embedding re.findall of identifier-then-optional-whitespace-
then-open-paren over the input, left to right, non-overlapping, resuming
after each consumed open paren (the fuel is always at least the list
length, which the scan never exceeds since every step consumes a
character). -/
def extractFnNamesAux : Nat → List Char → List (List Char)
  | 0, _ => []
  | _, [] => []
  | Nat.succ n, c :: t =>
    if isIdentStart c then
      let s := c :: t
      let name := s.takeWhile isWordChar
      let r1 := s.drop name.length
      let ws := r1.takeWhile isPySpace
      match r1.drop ws.length with
      | '(' :: t2 => name :: extractFnNamesAux n t2
      | _ => extractFnNamesAux n t
    else extractFnNamesAux n t

/-- Embeds extract_xpath_functions from xpath_utils.py. -/
def extract_xpath_functions (x : String) : List (List Char) :=
  extractFnNamesAux (x.length + 1) x.toList

/-- The complexity dict produced by get_xpath_complexity_score, with the
details sub-dict flattened into the last four fields. -/
structure Complexity where
  score : Nat
  level : String
  factors : List String
  pathDepth : Nat
  predicates : Nat
  functions : Nat
  axes : Nat
deriving DecidableEq, Repr

/-- Embeds get_xpath_complexity_score from xpath_utils.py. -/
def get_xpath_complexity_score (x : String) : Complexity :=
  let slashCount := x.toList.count '/'
  let predicateCount := x.toList.count '['
  let functionCount := (extract_xpath_functions x).length
  let axisCount := countPairSub ':' ':' x.toList
  let p1 : Nat × String :=
    if slashCount ≤ 3 then (1, "Simple path depth")
    else if slashCount ≤ 6 then (2, "Moderate path depth")
    else (3, "Deep path nesting")
  let p2 : Nat × String :=
    if predicateCount = 0 then (1, "No predicates")
    else if predicateCount ≤ 2 then (2, "Few predicates")
    else (3, "Many predicates")
  let p3 : Nat × String :=
    if functionCount = 0 then (1, "No functions")
    else if functionCount ≤ 2 then (2, "Some functions")
    else (3, "Many functions")
  let score := p1.1 + p2.1 + p3.1
  let level := if score ≤ 3 then "Simple" else if score ≤ 6 then "Moderate" else "Complex"
  ⟨score, level, [p1.2, p2.2, p3.2], slashCount, predicateCount, functionCount, axisCount⟩

/-! ## The looks-like-selector pre-filter -/

/-- Regex at-sign followed by a word character, searched anywhere. -/
def hasAtWord (l : List Char) : Bool :=
  match l with
  | '@' :: rest =>
    (match rest with | c :: _ => isWordChar c | [] => false) || hasAtWord rest
  | _ :: t => hasAtWord t
  | [] => false

/-- Regex open-bracket digits close-bracket, searched anywhere. -/
def hasBracketDigits (l : List Char) : Bool :=
  match l with
  | '[' :: t =>
    (let ds := t.takeWhile Char.isDigit
     !ds.isEmpty && ((t.drop ds.length).head? == some ']')) || hasBracketDigits t
  | _ :: t => hasBracketDigits t
  | [] => false

/-- Regex open-bracket, one or more non-close-bracket characters,
close-bracket, searched anywhere. -/
def hasBracketPred (l : List Char) : Bool :=
  match l with
  | '[' :: t =>
    (let run := t.takeWhile (fun c => c ≠ ']')
     !run.isEmpty && ((t.drop run.length).head? == some ']')) || hasBracketPred t
  | _ :: t => hasBracketPred t
  | [] => false

/-- Regex slash followed by a word character, searched anywhere. -/
def hasSlashWord (l : List Char) : Bool :=
  match l with
  | '/' :: rest =>
    (match rest with | c :: _ => isWordChar c | [] => false) || hasSlashWord rest
  | _ :: t => hasSlashWord t
  | [] => false

/-- Regex double slash followed by a word character, searched anywhere. -/
def hasDSlashWord (l : List Char) : Bool :=
  match l with
  | '/' :: rest =>
    (match rest with | '/' :: c :: _ => isWordChar c | _ => false) || hasDSlashWord rest
  | _ :: t => hasDSlashWord t
  | [] => false

/-- Embeds is_likely_xpath from xpath_utils.py. The indicator loop passes
raw strings to re.search; the entry written text() compiles to the plain
substring text followed by an empty group, so it matches the substring
text anywhere, and the entry written contains( is an invalid regex
(unterminated group): when the scan falls through to it, Python re
raises re.error, so the embedding is Except-valued. -/
def is_likely_xpath (text : String) : Except String Bool :=
  let t := (pyStrip text).toList
  if ¬ (t.head? == some '/') then .ok false
  else if hasAtWord t then .ok true
  else if hasBracketDigits t then .ok true
  else if hasBracketPred t then .ok true
  else if hasSlashWord t then .ok true
  else if hasDSlashWord t then .ok true
  else if hasInfix t "text".toList then .ok true
  else .error "re.error: missing ), unterminated subpattern"

/-! ## src/backend/utils/xpath_validator.py: incomplete functions and
malformed attributes -/

/-- Character class [a-zA-Z-] of the function-call finder in
validate_xpath_syntax. -/
def isFnNameChar (c : Char) : Bool := c.isAlpha || c = '-'

/-- Fueled embedding of re.finditer of [a-zA-Z-]+ then optional whitespace
then open paren; each entry is the matched identifier paired with the
suffix of the input starting at the identifier (the Python remaining_text
= xpath from start_pos on). -/
def findFnCallsAux : Nat → List Char → List (List Char × List Char)
  | 0, _ => []
  | _, [] => []
  | Nat.succ n, c :: t =>
    if isFnNameChar c then
      let s := c :: t
      let name := s.takeWhile isFnNameChar
      let r1 := s.drop name.length
      let ws := r1.takeWhile isPySpace
      match r1.drop ws.length with
      | '(' :: t2 => (name, s) :: findFnCallsAux n t2
      | _ => findFnCallsAux n t
    else findFnCallsAux n t

/-- Tests a predicate on every suffix of the input, embedding re.search
anchored tries at each start position. -/
def anySuffix (p : List Char → Bool) : Nat → List Char → Bool
  | 0, _ => false
  | Nat.succ n, s =>
    p s || (match s with | [] => false | _ :: t => anySuffix p n t)

/-- Anchored match of name, optional whitespace, open paren, optional
whitespace, close paren: the complete-call pattern for text, position and
last. -/
def matchUnitFnAt (name : List Char) (s : List Char) : Bool :=
  name.isPrefixOf s &&
    (match dropWs (s.drop name.length) with
     | '(' :: r2 => (dropWs r2).head? == some ')'
     | _ => false)

/-- Argument part of the complete-call pattern for contains: at least one
character that is neither comma nor close paren, a comma, then at least
one non-close-paren character before a close paren (whitespace belongs to
both bridging character classes, so the interleaved optional-whitespace
atoms of the source pattern add no extra strings). -/
def containsArgsOk (rest : List Char) : Bool :=
  let pre := rest.takeWhile (fun c => ¬ (c = ',' ∨ c = ')'))
  match rest.drop pre.length with
  | ',' :: r2 =>
    !pre.isEmpty &&
      (let pre2 := r2.takeWhile (fun c => c ≠ ')')
       match r2.drop pre2.length with
       | ')' :: _ => !pre2.isEmpty
       | _ => false)
  | _ => false

/-- Anchored complete-call pattern for contains. -/
def matchContainsCompleteAt (s : List Char) : Bool :=
  "contains".toList.isPrefixOf s &&
    (match dropWs (s.drop 8) with
     | '(' :: rest => containsArgsOk rest
     | _ => false)

/-- Anchored complete-call pattern for normalize-space: name, optional
whitespace, open paren, then a close paren somewhere after it. -/
def matchNormSpaceAt (s : List Char) : Bool :=
  "normalize-space".toList.isPrefixOf s &&
    (match dropWs (s.drop 15) with
     | '(' :: rest => rest.any (fun c => c = ')')
     | _ => false)

/-- Anchored match of name, optional whitespace, open paren, then no close
paren up to the end of the string: the clearly-truncated test. -/
def matchDanglingAt (name : List Char) (s : List Char) : Bool :=
  name.isPrefixOf s &&
    (match dropWs (s.drop name.length) with
     | '(' :: rest => rest.all (fun c => c ≠ ')')
     | _ => false)

/-- Known function names of the incomplete-function detector. -/
def knownFns : List (List Char) :=
  ["contains".toList, "text".toList, "position".toList, "last".toList,
   "normalize-space".toList]

/-- Dispatches the complete-call pattern search for a known function name
over the remaining text. -/
def fnCompleteSearch (name remaining : List Char) : Bool :=
  if name = "contains".toList then
    anySuffix matchContainsCompleteAt (remaining.length + 1) remaining
  else if name = "normalize-space".toList then
    anySuffix matchNormSpaceAt (remaining.length + 1) remaining
  else
    anySuffix (matchUnitFnAt name) (remaining.length + 1) remaining

/-- Embeds find_incomplete_functions (the leading-underscore helper of
xpath_validator.py); each entry is the error message paired with its
suggestion, in the order the Python appends them. -/
def findIncompleteFunctions (x : List Char) : List (String × String) :=
  (findFnCallsAux (x.length + 1) x).flatMap (fun nr =>
    let name := nr.1
    let remaining := nr.2
    let nameStr := String.mk name
    let dangling := anySuffix (matchDanglingAt name) (remaining.length + 1) remaining
    let endsOpen := endsWithList remaining (name ++ ['('])
    let endsUnit := endsWithList remaining (name ++ ['(', ')'])
    let first :=
      if knownFns.contains name && !fnCompleteSearch name remaining
         && (endsOpen || endsUnit || dangling) then
        [("Incomplete function: " ++ nameStr,
          "Complete the " ++ nameStr ++ "() function call")]
      else []
    let second :=
      if endsOpen || (endsUnit && name ≠ "text".toList) then
        if name = "contains".toList then
          [("Incomplete function: " ++ nameStr,
            "Add arguments: " ++ nameStr ++ "(text(), \x27value\x27)")]
        else
          [("Incomplete function: " ++ nameStr,
            "Complete the " ++ nameStr ++ "() function")]
      else []
    first ++ second)

/-- Excluded class of the quoted-value test in the second malformed-
attribute pattern. -/
def isP2Excluded (c : Char) : Bool := c = '"' || c = '\x27' || c = ']' || isPySpace c

/-- Fueled embedding of re.finditer of at-sign word-plus optional-whitespace
equals optional-whitespace end-of-string (assignment without value);
the match consumes the rest of the string, so at most one is found. -/
def malP1 : Nat → List Char → List (List Char)
  | 0, _ => []
  | _, [] => []
  | Nat.succ n, c :: t =>
    if c = '@' then
      let w := t.takeWhile isWordChar
      if w.isEmpty then malP1 n t
      else
        let r1 := t.drop w.length
        let ws1 := r1.takeWhile isPySpace
        match r1.drop ws1.length with
        | '=' :: r2 =>
          if r2.all isPySpace then ['@' :: w ++ ws1 ++ '=' :: r2]
          else malP1 n t
        | _ => malP1 n t
    else malP1 n t

/-- Fueled embedding of re.finditer of at-sign word-plus optional-whitespace
equals, then one character that is not a quote, close bracket or
whitespace (unquoted attribute value); scanning resumes after each match. -/
def malP2 : Nat → List Char → List (List Char)
  | 0, _ => []
  | _, [] => []
  | Nat.succ n, c :: t =>
    if c = '@' then
      let w := t.takeWhile isWordChar
      if w.isEmpty then malP2 n t
      else
        let r1 := t.drop w.length
        let ws1 := r1.takeWhile isPySpace
        match r1.drop ws1.length with
        | '=' :: d :: r2 =>
          if !isP2Excluded d then ('@' :: w ++ ws1 ++ ['=', d]) :: malP2 n r2
          else malP2 n t
        | _ => malP2 n t
    else malP2 n t

/-- Fueled embedding of re.finditer of at-sign word-plus optional-whitespace
equals optional-whitespace quote, then non-quote characters up to the end
of the string (unterminated quoted value); the match consumes the rest of
the string. -/
def malP3 : Nat → List Char → List (List Char)
  | 0, _ => []
  | _, [] => []
  | Nat.succ n, c :: t =>
    if c = '@' then
      let w := t.takeWhile isWordChar
      if w.isEmpty then malP3 n t
      else
        let r1 := t.drop w.length
        let ws1 := r1.takeWhile isPySpace
        match r1.drop ws1.length with
        | '=' :: r2 =>
          let ws2 := r2.takeWhile isPySpace
          match r2.drop ws2.length with
          | q :: r3 =>
            if (q = '"' || q = '\x27')
               && r3.all (fun c => ¬ (c = '"' ∨ c = '\x27')) then
              ['@' :: w ++ ws1 ++ '=' :: ws2 ++ q :: r3]
            else malP3 n t
          | [] => malP3 n t
        | _ => malP3 n t
    else malP3 n t

/-- Embeds find_malformed_attributes of xpath_validator.py; each entry is
the error message paired with its suggestion, grouped per pattern in the
order the Python iterates. -/
def findMalformedAttributes (x : List Char) : List (String × String) :=
  (malP1 (x.length + 1) x).map (fun m =>
    ("Malformed attribute: " ++ String.mk m, "Attribute assignment without value"))
  ++ (malP2 (x.length + 1) x).map (fun m =>
    ("Malformed attribute: " ++ String.mk m, "Attribute value should be quoted"))
  ++ (malP3 (x.length + 1) x).map (fun m =>
    ("Malformed attribute: " ++ String.mk m, "Unterminated quoted attribute value"))

/-- The validation-report dict of validate_xpath_syntax (spec name
ValidationReport); the errors field embeds the Python syntax_errors key. -/
structure ValidationReport where
  isValid : Bool
  isLikelyXpath : Bool
  errors : List String
  warnings : List String
  suggestions : List String
  complexity : Option Complexity
deriving DecidableEq, Repr

/-- Error and suggestion text for one delimiter-balance issue, as
validate_xpath_syntax renders it. -/
def delimIssueMsgs (i : DelimIssue) : String × String :=
  if i.issueType = "missing_closing" then
    ("Missing " ++ toString i.missingCount ++ " closing \x27" ++ i.ch.toString ++ "\x27",
     "Add " ++ toString i.missingCount ++ " \x27" ++ i.ch.toString ++ "\x27 at the end")
  else
    ("Extra " ++ toString i.missingCount ++ " \x27" ++ i.ch.toString ++ "\x27 characters",
     "Remove extra \x27" ++ i.ch.toString ++ "\x27 characters")

/-- Main body of validate_xpath_syntax for a stripped input that passed
the pre-filter: delimiter balance, incomplete functions, malformed
attributes, validity, warnings and complexity. -/
def analyzeBody (x : String) : ValidationReport :=
  let balIss := (find_unmatched_chars x
    [('[', ']'), ('(', ')'), ('"', '"'), ('\x27', '\x27')]).map delimIssueMsgs
  let issues := balIss ++ findIncompleteFunctions x.toList
    ++ findMalformedAttributes x.toList
  let errs := issues.map Prod.fst
  let valid := errs.isEmpty
  let warns :=
    (if valid then ["Advanced syntax validation unavailable (lxml not installed)"]
     else [])
    ++ (if strHasInfix x "//" ∧ countPairSub '/' '/' x.toList > 3 then
          ["Many \x27//\x27 operators may impact performance"] else [])
    ++ (if x.length > 200 then ["Very long XPath may be hard to maintain"] else [])
  ⟨valid, true, errs, warns, issues.map Prod.snd,
   some (get_xpath_complexity_score x)⟩

/-- Embeds validate_xpath_syntax from xpath_validator.py (the Syntax
Analyzer). The optional lxml compilation step is modelled as unavailable
(lxml is an optional external dependency guarded by a try-import), so a
report with no heuristic errors is granted isValid together with the
corresponding warning, exactly the no-lxml branch of the source. The
pre-filter can raise re.error (see is_likely_xpath), hence the Except. -/
def analyze_xpath (xpath : String) : Except String ValidationReport :=
  if xpath = "" then
    .ok ⟨false, false, ["XPath is empty or not a string"], [], [], none⟩
  else
    match is_likely_xpath (pyStrip xpath) with
    | .error e => .error e
    | .ok lk =>
      if ¬ lk then
        .ok ⟨false, false, ["Text does not appear to be an XPath expression"], [],
             ["XPath should start with / or // and contain element selectors"], none⟩
      else
        .ok (analyzeBody (pyStrip xpath))

/-- True when the Syntax Analyzer returns a report marked valid. -/
def analyzeValid (s : String) : Bool :=
  match analyze_xpath s with
  | .ok v => v.isValid
  | .error _ => false

/-- Decidable equality on Except, used to evaluate the embeddings at
concrete inputs. -/
instance instDecEqExcept {ε α : Type} [DecidableEq ε] [DecidableEq α] :
    DecidableEq (Except ε α)
  | .error e, .error f =>
    if h : e = f then .isTrue (by rw [h]) else .isFalse (by simp [h])
  | .error _, .ok _ => .isFalse (by simp)
  | .ok _, .error _ => .isFalse (by simp)
  | .ok a, .ok b =>
    if h : a = b then .isTrue (by rw [h]) else .isFalse (by simp [h])

/-- C2 counterexample: on the empty input string the Syntax Analyzer
returns a report whose complexity field is null, refuting the claim that
every input yields a non-null complexity. -/
theorem claim_C2_counterexample :
    (analyze_xpath "").toOption.map ValidationReport.complexity = some none := by
  decide

/-- C2 amended: the Syntax Analyzer attaches a non-null complexity exactly
for the inputs that pass the empty check and the looks-like-selector
pre-filter (the report's isLikelyXpath field); complexity is independent
of syntax errors and validity, but empty or pre-filter-failing inputs
return early with a null complexity. -/
theorem claim_C2_amended (x : String) (r : ValidationReport)
    (h : analyze_xpath x = .ok r) :
    r.complexity.isSome = r.isLikelyXpath := by
  unfold analyze_xpath at h
  split at h
  · simp only [Except.ok.injEq] at h
    subst h
    rfl
  · split at h
    · simp at h
    · split at h
      · simp only [Except.ok.injEq] at h
        subst h
        rfl
      · simp only [Except.ok.injEq] at h
        subst h
        simp [analyzeBody]

/-- The report the Syntax Analyzer produces on the input //div. -/
def reportDDiv : ValidationReport :=
  ⟨true, true, [], ["Advanced syntax validation unavailable (lxml not installed)"], [],
   some ⟨3, "Simple", ["Simple path depth", "No predicates", "No functions"], 2, 0, 0, 0⟩⟩

/-- Witness for the amended C2 at the concrete input //div: the analyzer
passes the pre-filter and attaches a complexity. -/
theorem claim_C2_witness : reportDDiv.complexity.isSome = reportDDiv.isLikelyXpath :=
  claim_C2_amended "//div" reportDDiv (by decide)

/-! ## src/backend/utils/xpath_fixer.py: the Repair Engine -/

/-- Result of one fixer pass: the Python dict with keys fixed, result,
changes. -/
structure PassResult where
  fixed : Bool
  result : String
  changes : List String
deriving DecidableEq, Repr

/-- Regex at-sign word-plus end-of-string, tested on the whole input. -/
def endsWithAtWord (s : List Char) : Bool :=
  let r := s.reverse
  let w := r.takeWhile isWordChar
  !w.isEmpty && ((r.drop w.length).head? == some '@')

/-- Embeds fix_truncation (the leading-underscore helper of
xpath_fixer.py) at instruction None: the chain of suffix checks; the
instruction-driven search-term substitution block is a no-op because its
condition requires a truthy instruction. -/
def fixTruncation (x : String) : PassResult :=
  if strEndsWith x "contains(text()" then
    ⟨true, x ++ ", \"\")", ["Completed truncated contains() function"]⟩
  else if strEndsWith x "contains(text(" then
    ⟨true, x ++ "(), \"\")", ["Completed truncated contains() function"]⟩
  else if strEndsWith x "contains(" then
    ⟨true, x ++ "text(), \"\")", ["Completed truncated contains() function"]⟩
  else if strEndsWith x "text(" then
    ⟨true, x ++ ")", ["Completed truncated text() function"]⟩
  else if endsWithAtWord x.toList then
    ⟨true, x ++ "=\"\"", ["Added missing attribute value"]⟩
  else if strEndsWith x "=" then
    ⟨true, x ++ "\"\"", ["Added missing quoted attribute value"]⟩
  else ⟨false, x, []⟩

/-- The missing_opening removal loop of fix_balance_issues: up to n times,
drop a trailing close character, recording one change per removal; once
the string no longer ends with the close character nothing further
happens. -/
def stripClosers (cc : Char) : Nat → List Char → List Char × List String
  | 0, s => (s, [])
  | Nat.succ n, s =>
    if s.getLast? == some cc then
      let r := stripClosers cc n s.dropLast
      (r.1, ("Removed extra \x27" ++ cc.toString ++ "\x27") :: r.2)
    else (s, [])

/-- One delimiter pair of fix_balance_issues: append missing closers or
strip excess trailing closers, from the counts of find_unmatched_chars. -/
def balancePair (oc cc : Char) (s : String) : PassResult :=
  let o := s.toList.count oc
  let c := s.toList.count cc
  if o = c then ⟨false, s, []⟩
  else if c < o then
    ⟨true, s ++ String.mk (List.replicate (o - c) cc),
     ["Added " ++ toString (o - c) ++ " missing \x27" ++ cc.toString ++ "\x27"]⟩
  else
    let r := stripClosers cc (c - o) s.toList
    ⟨!r.2.isEmpty, String.mk r.1, r.2⟩

/-- Embeds fix_balance_issues: the bracket pair then the paren pair, the
second operating on the output of the first, flags and changes merged. -/
def fixBalance (s : String) : PassResult :=
  let b1 := balancePair '[' ']' s
  let b2 := balancePair '(' ')' b1.result
  ⟨b1.fixed || b2.fixed, b2.result, b1.changes ++ b2.changes⟩

/-- Quote characters of the fixer patterns. -/
def isQuoteCh (c : Char) : Bool := c = '"' || c = '\x27'

/-- Anchored tail of the mismatched-quote pattern after its leading
at-sign: word-plus, optional whitespace, equals, optional whitespace, a
quote, a lazy run of non-quote characters, then the next quote; the
replacement repeats the opening quote when the two differ. Returns the
replacement chunk and the unconsumed rest. -/
def parseMismatchAt (t : List Char) : Option (List Char × List Char) :=
  let w := t.takeWhile isWordChar
  if w.isEmpty then none
  else
    let r1 := t.drop w.length
    let ws1 := r1.takeWhile isPySpace
    match r1.drop ws1.length with
    | '=' :: r2 =>
      let ws2 := r2.takeWhile isPySpace
      match r2.drop ws2.length with
      | q1 :: r3 =>
        if isQuoteCh q1 then
          let v := r3.takeWhile (fun c => !isQuoteCh c)
          match r3.drop v.length with
          | q2 :: rest =>
            some ('@' :: w ++ ws1 ++ '=' :: ws2 ++ q1 :: v
                   ++ [if q1 = q2 then q2 else q1], rest)
          | [] => none
        else none
      | [] => none
    | _ => none

/-- Fueled re.sub scanner for the mismatched-quote pattern: matches start
only at an at-sign, unmatched characters are copied, scanning resumes
after each consumed match. -/
def quoteMismatchSub : Nat → List Char → List Char
  | 0, s => s
  | _, [] => []
  | Nat.succ n, c :: t =>
    if c = '@' then
      match parseMismatchAt t with
      | some pr => pr.1 ++ quoteMismatchSub n pr.2
      | none => c :: quoteMismatchSub n t
    else c :: quoteMismatchSub n t

/-- Anchored tail of the unquoted-value pattern after its leading at-sign:
word-plus, optional whitespace, equals, optional whitespace, then a
non-empty greedy run of characters that are not quotes, whitespace or a
close bracket; the replacement wraps the run in double quotes. -/
def parseUnquotedAt (t : List Char) : Option (List Char × List Char) :=
  let w := t.takeWhile isWordChar
  if w.isEmpty then none
  else
    let r1 := t.drop w.length
    let ws1 := r1.takeWhile isPySpace
    match r1.drop ws1.length with
    | '=' :: r2 =>
      let ws2 := r2.takeWhile isPySpace
      let r3 := r2.drop ws2.length
      let v := r3.takeWhile (fun c => !(isQuoteCh c || isPySpace c || c = ']'))
      if v.isEmpty then none
      else some ('@' :: w ++ ws1 ++ '=' :: ws2 ++ '"' :: v ++ ['"'], r3.drop v.length)
    | _ => none

/-- Fueled re.sub scanner for the unquoted-value pattern. -/
def quoteUnquotedSub : Nat → List Char → List Char
  | 0, s => s
  | _, [] => []
  | Nat.succ n, c :: t =>
    if c = '@' then
      match parseUnquotedAt t with
      | some pr => pr.1 ++ quoteUnquotedSub n pr.2
      | none => c :: quoteUnquotedSub n t
    else c :: quoteUnquotedSub n t

/-- Embeds fix_quote_issues: the mismatched-quote substitution then the
unquoted-value substitution, each recording a change only when it altered
the string; the final string is the second substitution's output, which
equals the input when neither pattern changed anything. -/
def fixQuotes (s : String) : PassResult :=
  let s1 := String.mk (quoteMismatchSub (s.toList.length + 1) s.toList)
  let c1 : List String :=
    if s1 ≠ s then ["Fixed mismatched quotes in attribute values"] else []
  let s2 := String.mk (quoteUnquotedSub (s1.toList.length + 1) s1.toList)
  let c2 : List String :=
    if s2 ≠ s1 then ["Added missing quotes around attribute values"] else []
  ⟨!c1.isEmpty || !c2.isEmpty, s2, c1 ++ c2⟩

/-- Anchored tail of the incomplete-attribute pattern after its leading
at-sign: word-plus, optional whitespace, equals, optional whitespace,
followed (zero-width lookahead) by a close bracket, whitespace or the end
of the string; the greedy-then-backtrack whitespace run keeps the final
whitespace character for the lookahead when nothing else satisfies it.
The replacement appends two double quotes after the matched text. -/
def parseAttrIncompleteAt (t : List Char) : Option (List Char × List Char) :=
  let w := t.takeWhile isWordChar
  if w.isEmpty then none
  else
    let r1 := t.drop w.length
    let ws1 := r1.takeWhile isPySpace
    match r1.drop ws1.length with
    | '=' :: r2 =>
      let m := r2.takeWhile isPySpace
      let after := r2.drop m.length
      if after.head? == some ']' || after.isEmpty then
        some ('@' :: w ++ ws1 ++ '=' :: m ++ ['"', '"'], after)
      else if !m.isEmpty then
        some ('@' :: w ++ ws1 ++ '=' :: m.take (m.length - 1) ++ ['"', '"'],
              m.drop (m.length - 1) ++ after)
      else none
    | _ => none

/-- Fueled re.sub scanner for the incomplete-attribute pattern. -/
def attrIncompleteSub : Nat → List Char → List Char
  | 0, s => s
  | _, [] => []
  | Nat.succ n, c :: t =>
    if c = '@' then
      match parseAttrIncompleteAt t with
      | some pr => pr.1 ++ attrIncompleteSub n pr.2
      | none => c :: attrIncompleteSub n t
    else c :: attrIncompleteSub n t

/-- Embeds fix_attribute_issues: the empty-valued attribute substitution
(the missing-at-sign block of the source is a literal pass statement and
changes nothing). -/
def fixAttributes (s : String) : PassResult :=
  let s1 := String.mk (attrIncompleteSub (s.toList.length + 1) s.toList)
  if s1 ≠ s then ⟨true, s1, ["Added missing attribute value"]⟩ else ⟨false, s, []⟩

/-- Anchored match at a suffix for the pattern contains open-paren,
optional whitespace, text(), optional whitespace, end of string. -/
def matchP1At (s : List Char) : Bool :=
  "contains(".toList.isPrefixOf s &&
    (let r := dropWs (s.drop 9)
     "text()".toList.isPrefixOf r && (r.drop 6).all isPySpace)

/-- Anchored match at a suffix for the pattern contains open-paren,
optional whitespace, text(), optional whitespace, comma, optional
whitespace, end of string. -/
def matchP2At (s : List Char) : Bool :=
  "contains(".toList.isPrefixOf s &&
    (let r := dropWs (s.drop 9)
     "text()".toList.isPrefixOf r &&
       (match dropWs (r.drop 6) with
        | ',' :: rest => rest.all isPySpace
        | _ => false))

/-- Anchored match at a suffix for the pattern contains open-paren,
optional whitespace, at-sign word-plus, optional whitespace, end of
string. -/
def matchP3At (s : List Char) : Bool :=
  "contains(".toList.isPrefixOf s &&
    (match dropWs (s.drop 9) with
     | '@' :: r =>
       let w := r.takeWhile isWordChar
       !w.isEmpty && (r.drop w.length).all isPySpace
     | _ => false)

/-- Anchored match at a suffix for the pattern contains open-paren,
optional whitespace, at-sign word-plus, optional whitespace, comma,
optional whitespace, end of string. -/
def matchP4At (s : List Char) : Bool :=
  "contains(".toList.isPrefixOf s &&
    (match dropWs (s.drop 9) with
     | '@' :: r =>
       let w := r.takeWhile isWordChar
       !w.isEmpty &&
         (match dropWs (r.drop w.length) with
          | ',' :: rest => rest.all isPySpace
          | _ => false)
     | _ => false)

/-- Anchored match at a suffix for name open-paren optional-whitespace
end-of-string (the zero-argument completion patterns). -/
def matchUnitEndAt (name : List Char) (s : List Char) : Bool :=
  (name ++ ['(']).isPrefixOf s && (s.drop (name.length + 1)).all isPySpace

/-- Leftmost end-anchored re.sub: replaces the suffix starting at the
first position whose anchored match succeeds (such a match always extends
to the end of the string), or returns none when no position matches. -/
def replaceSuffixMatch (p : List Char → Bool) (rep : List Char) :
    Nat → List Char → Option (List Char)
  | 0, _ => none
  | Nat.succ n, s =>
    if p s then some rep
    else
      match s with
      | [] => none
      | c :: t => (replaceSuffixMatch p rep n t).map (fun r => c :: r)

/-- One end-anchored substitution step of fix_function_issues: apply the
pattern and record the description when the string changed. -/
def funcFixStep (p : List Char → Bool) (rep : List Char) (desc : String)
    (st : List Char × List String) : List Char × List String :=
  match replaceSuffixMatch p rep (st.1.length + 1) st.1 with
  | some n => if n ≠ st.1 then (n, st.2 ++ [desc]) else st
  | none => st

/-- Embeds fix_function_issues at instruction None. The third and fourth
patterns (dangling contains with an attribute argument) carry the
replacement template contains open-paren at-sign backslash-w which Python
re rejects as a bad escape, so re.sub raises whenever their search
matches; the embedding returns that error. The instruction-driven
search-term block is a no-op at instruction None. -/
def fixFunctions (s : String) : Except String PassResult :=
  let st1 := funcFixStep matchP1At "contains(text(), \"\")".toList
    "Completed contains() function" (s.toList, [])
  let st2 := funcFixStep matchP2At "contains(text(), \"\")".toList
    "Added missing contains() argument" st1
  if anySuffix matchP3At (st2.1.length + 1) st2.1 then
    .error "re.error: bad escape \\w at position 10"
  else if anySuffix matchP4At (st2.1.length + 1) st2.1 then
    .error "re.error: bad escape \\w at position 10"
  else
    let st3 := funcFixStep (matchUnitEndAt "text".toList) "text()".toList
      "Completed text() function" st2
    let st4 := funcFixStep (matchUnitEndAt "position".toList) "position()".toList
      "Completed position() function" st3
    let st5 := funcFixStep (matchUnitEndAt "last".toList) "last()".toList
      "Completed last() function" st4
    .ok ⟨!st5.2.isEmpty, String.mk st5.1, st5.2⟩

/-- Severity score of one change description, from the fixed table of
calculate_confidence (substring match on the lowercased description, in
table order, unknown descriptions scoring six tenths). -/
def changeScore (c : String) : Rat :=
  let l := lowerStr c
  if strHasInfix l "missing closing" then 9/10
  else if strHasInfix l "missing quotes" then 4/5
  else if strHasInfix l "truncated" then 4/5
  else if strHasInfix l "unbalanced" then 7/10
  else if strHasInfix l "malformed" then 3/5
  else if strHasInfix l "incomplete" then 1/2
  else 3/5

/-- Embeds calculate_confidence: full confidence when nothing changed,
otherwise the average severity of the change descriptions, scaled by four
fifths when more than three changes were applied, clamped to the unit
interval. -/
def calcConfidence (original fixed : String) (changes : List String) : Rat :=
  if original = fixed then 1
  else
    let conf :=
      if changes.length > 0 then
        (changes.map changeScore).sum / (changes.length : Rat)
      else (1 : Rat) / 2
    let conf2 := if changes.length > 3 then conf * (4 / 5) else conf
    max 0 (min 1 conf2)

/-- The repair-result dict of fix_xpath (spec name RepairResult). -/
structure FixResult where
  originalXpath : String
  fixedXpath : String
  changesMade : List String
  confidence : Rat
  isFixed : Bool
  suggestions : List String
deriving DecidableEq, Repr, Inhabited

/-- Threads one fixer pass through the working string and accumulated
change list, applying the pass output only when its fixed flag is set
(the Python updates working_xpath and extends fixes_applied under that
condition). -/
def applyPass (p : String → PassResult) (st : String × List String) :
    String × List String :=
  let r := p st.1
  (if r.fixed then r.result else st.1, st.2 ++ (if r.fixed then r.changes else []))

/-- The four pure fixer passes of fix_xpath in source order: truncation,
balance, quotes, attributes. -/
def prePasses (w0 : String) : String × List String :=
  applyPass fixAttributes (applyPass fixQuotes (applyPass fixBalance
    (applyPass fixTruncation (w0, []))))

/-- Final assembly of fix_xpath after all fixer passes: the result is
validated by the Syntax Analyzer, is_fixed is the analyzer's verdict, and
the analyzer's suggestions are copied when the result is still invalid
with errors. -/
def finishFix (broken : String) (st : String × List String) :
    Except String FixResult :=
  match analyze_xpath st.1 with
  | .error e => .error e
  | .ok v =>
    .ok ⟨broken, st.1, st.2, calcConfidence broken st.1 st.2, v.isValid,
         if ¬ v.isValid ∧ v.errors ≠ [] then v.suggestions else []⟩

/-- The function-completion pass followed by final assembly. -/
def assembleFix (broken : String) (st : String × List String) :
    Except String FixResult :=
  match fixFunctions st.1 with
  | .error e => .error e
  | .ok f =>
    finishFix broken
      (if f.fixed then f.result else st.1, st.2 ++ (if f.fixed then f.changes else []))

/-- Embeds fix_xpath from xpath_fixer.py at instruction None: early return
on the empty input, otherwise the stripped input is threaded through the
five fixer passes, confidence is computed from the original input and the
accumulated changes, and validity is re-derived by the Syntax Analyzer. -/
def fix_xpath (broken : String) : Except String FixResult :=
  if broken = "" then
    .ok ⟨broken, broken, [], 0, false, ["Provide a valid XPath string"]⟩
  else
    assembleFix broken (prePasses (pyStrip broken))

/-! ## Claims about the Repair Engine -/

/-- C8: on the input //button[contains(text() the repair operation
completes the contains function and closes the bracket, yielding exactly
//button[contains(text(), "")] with isFixed true. -/
theorem claim_C8 :
    (fix_xpath "//button[contains(text()").toOption.map
      (fun r => (r.fixedXpath, r.isFixed))
      = some ("//button[contains(text(), \"\")]", true) := by
  decide

/-- C9: on the input //div[@id=value] the repair operation wraps the
unquoted attribute value in double quotes, returning //div[@id="value"]. -/
theorem claim_C9 :
    (fix_xpath "//div[@id=value]").toOption.map FixResult.fixedXpath
      = some "//div[@id=\"value\"]" := by
  decide

/-- C3: whenever the repair operation returns a result with isFixed true,
re-running the Syntax Analyzer on the repaired string yields a valid
report; isFixed is obtained inside fix_xpath by running the analyzer on
the final string, never asserted by the repair step itself. -/
theorem claim_C3 (x : String) (r : FixResult)
    (h : fix_xpath x = .ok r) (hf : r.isFixed = true) :
    analyzeValid r.fixedXpath = true := by
  unfold fix_xpath at h
  split at h
  · simp only [Except.ok.injEq] at h
    subst h
    simp at hf
  · unfold assembleFix at h
    split at h
    · simp at h
    · unfold finishFix at h
      split at h
      · simp at h
      · rename_i v hv
        simp only [Except.ok.injEq] at h
        subst h
        simp only at hf ⊢
        simp [analyzeValid, hv, hf]

/-- Witness for C3 at the concrete input //button[contains(text() whose
repair result carries isFixed true. -/
theorem claim_C3_witness :
    analyzeValid
      ((fix_xpath "//button[contains(text()").toOption.getD default).fixedXpath
      = true :=
  claim_C3 "//button[contains(text()"
    ((fix_xpath "//button[contains(text()").toOption.getD default)
    (by rfl) (by rfl)

/-- C6 counterexample: the input //a/@href analyzes as valid, yet the
repair operation still modifies it (the truncation fixer appends an empty
attribute value), so changesMade is the non-empty list below, refuting
the claim that valid inputs yield changesMade empty and confidence one. -/
theorem claim_C6_counterexample :
    analyzeValid "//a/@href" = true ∧
    (fix_xpath "//a/@href").toOption.map FixResult.changesMade
      = some ["Added missing attribute value"] ∧
    (["Added missing attribute value"] : List String) ≠ [] := by
  refine ⟨by decide, by rfl, by decide⟩

/-- A truncation-fixer output flagged fixed always records a change. -/
theorem fixTruncation_fixed_changes (s : String) :
    (fixTruncation s).fixed = true → (fixTruncation s).changes ≠ [] := by
  unfold fixTruncation
  split_ifs <;> simp

/-- A balance-pair output flagged fixed always records a change. -/
theorem balancePair_fixed_changes (oc cc : Char) (s : String) :
    (balancePair oc cc s).fixed = true → (balancePair oc cc s).changes ≠ [] := by
  simp only [balancePair]
  split_ifs
  · simp
  · simp
  · intro h hn
    dsimp only at h hn
    rw [hn] at h
    simp at h

/-- A balance-fixer output flagged fixed always records a change. -/
theorem fixBalance_fixed_changes (s : String) :
    (fixBalance s).fixed = true → (fixBalance s).changes ≠ [] := by
  unfold fixBalance
  dsimp only
  intro h
  rcases Bool.or_eq_true_iff.mp h with h1 | h2
  · have := balancePair_fixed_changes '[' ']' s h1
    simp [List.append_eq_nil, this]
  · have := balancePair_fixed_changes '(' ')' (balancePair '[' ']' s).result h2
    simp [List.append_eq_nil, this]

/-- A quote-fixer output flagged fixed always records a change. -/
theorem fixQuotes_fixed_changes (s : String) :
    (fixQuotes s).fixed = true → (fixQuotes s).changes ≠ [] := by
  simp only [fixQuotes]
  split_ifs <;> simp

/-- An attribute-fixer output flagged fixed always records a change. -/
theorem fixAttributes_fixed_changes (s : String) :
    (fixAttributes s).fixed = true → (fixAttributes s).changes ≠ [] := by
  simp only [fixAttributes]
  split_ifs <;> simp

/-- A function-fixer output flagged fixed always records a change. -/
theorem fixFunctions_fixed_changes (s : String) (f : PassResult)
    (h : fixFunctions s = .ok f) :
    f.fixed = true → f.changes ≠ [] := by
  simp only [fixFunctions] at h
  split at h
  · simp at h
  · split at h
    · simp at h
    · simp only [Except.ok.injEq] at h
      subst h
      simp

/-- If a threaded fixer pass whose fixed outputs always record changes
contributes no changes, it did not fire and the working string is
unchanged. -/
theorem applyPass_nil (p : String → PassResult) (st : String × List String)
    (hp : ∀ s, (p s).fixed = true → (p s).changes ≠ [])
    (h : (applyPass p st).2 = []) :
    st.2 = [] ∧ (applyPass p st).1 = st.1 := by
  unfold applyPass at h ⊢
  dsimp only at h ⊢
  rcases List.append_eq_nil.mp h with ⟨h1, h2⟩
  refine ⟨h1, ?_⟩
  by_cases hf : (p st.1).fixed = true
  · exact absurd (by rwa [if_pos hf] at h2) (hp st.1 hf)
  · rw [if_neg hf]

/-- C6 amended: when the input is non-empty, equals its stripped form, and
the repair operation records no changes, the repaired string equals the
input and confidence is one. Analyzing as valid does not by itself
guarantee this (see the counterexample //a/@href, which is modified with
confidence three fifths). -/
theorem claim_C6_amended (x : String) (r : FixResult)
    (hs : pyStrip x = x) (hx : x ≠ "")
    (h : fix_xpath x = .ok r) (hc : r.changesMade = []) :
    r.confidence = 1 ∧ r.fixedXpath = x := by
  unfold fix_xpath at h
  rw [if_neg hx, hs] at h
  unfold assembleFix at h
  split at h
  · simp at h
  · rename_i f hff
    unfold finishFix at h
    split at h
    · simp at h
    · rename_i v hv
      simp only [Except.ok.injEq] at h
      subst h
      simp only at hc ⊢
      rcases List.append_eq_nil.mp hc with ⟨h1, h2⟩
      have hffix : ¬ f.fixed = true := by
        intro hb
        rw [if_pos hb] at h2
        exact fixFunctions_fixed_changes _ f hff hb h2
      have h4 := applyPass_nil fixAttributes _
        (fun s => fixAttributes_fixed_changes s) h1
      have h3 := applyPass_nil fixQuotes _
        (fun s => fixQuotes_fixed_changes s) h4.1
      have hb2 := applyPass_nil fixBalance _
        (fun s => fixBalance_fixed_changes s) h3.1
      have hb1 := applyPass_nil fixTruncation (x, [])
        (fun s => fixTruncation_fixed_changes s) hb2.1
      have hw : (prePasses x).1 = x := by
        unfold prePasses
        rw [h4.2, h3.2, hb2.2, hb1.2]
      rw [if_neg hffix, hw, hc]
      constructor
      · simp [calcConfidence]
      · rfl

/-- Witness for the amended C6 at the concrete input //div, which every
fixer pass leaves unchanged: identity repair with confidence one. -/
theorem claim_C6_witness :
    ((fix_xpath "//div").toOption.getD default).confidence = 1 ∧
    ((fix_xpath "//div").toOption.getD default).fixedXpath = "//div" :=
  claim_C6_amended "//div" ((fix_xpath "//div").toOption.getD default)
    (by decide) (by decide) (by rfl) (by rfl)

/-! ## src/backend/validator.py: the Live Validator -/

/-- The validation-result dict of validate_xpath (spec name
LiveMatchResult). -/
structure LiveResult where
  valid : Bool
  matchCount : Nat
  elementInfo : Option String
  error : Option String
deriving DecidableEq, Repr

/-- Outcome of the browser session underlying one validate_xpath call:
the outer browser or navigation machinery raised (browserError), the
locator evaluation raised (evalError), or counting succeeded with a match
count and the element-info description derived from the first match (the
extraction ladder of the source always yields some string when at least
one element matched, degrading to tag name alone or a fixed message, so
it is modelled by the resulting description). -/
inductive BrowserOutcome where
  | browserError (msg : String)
  | evalError (msg : String)
  | success (count : Nat) (desc : String)
deriving DecidableEq, Repr

/-- Embeds validate_xpath from src/backend/validator.py over a browser
outcome: the success return sets valid to whether the match count is
positive and element_info only when a match exists; the two exception
handlers return the error-prefixed dicts of the source. -/
def validate_xpath : BrowserOutcome → LiveResult
  | .browserError m => ⟨false, 0, none, some ("Browser error: " ++ m)⟩
  | .evalError m => ⟨false, 0, none, some ("XPath evaluation error: " ++ m)⟩
  | .success c desc => ⟨decide (c > 0), c, if c > 0 then some desc else none, none⟩

/-- The early-return test of validate_xpath_with_retry: a result is
returned at once when its error is none or contains the evaluation-error
marker (retrying a bad selector cannot help). -/
def shouldReturn (r : LiveResult) : Bool :=
  match r.error with
  | none => true
  | some e => strHasInfix e "XPath evaluation error"

/-- Execution trace of validate_xpath_with_retry: the returned dict, the
number of validate_xpath calls made, and the recorded one-second sleeps
in order. -/
structure RetryTrace where
  result : LiveResult
  attemptsMade : Nat
  sleeps : List Nat
deriving DecidableEq, Repr

/-- Loop of validate_xpath_with_retry over a per-attempt result oracle:
remaining counts the current and all future iterations, so the initial
call passes max_retries + 1. A result passing shouldReturn is returned
immediately; the final iteration returns the last result without
sleeping; otherwise the loop records a one-second sleep and retries. The
zero-remaining branch embeds the dead fallback dict of the source (the
range over max_retries + 1 is never empty, so it is unreachable). -/
def retryGo (res : Nat → LiveResult) : Nat → Nat → RetryTrace
  | _, 0 => ⟨⟨false, 0, none, some "Validation failed after retries"⟩, 0, []⟩
  | attempt, Nat.succ rem =>
    if shouldReturn (res attempt) then ⟨res attempt, 1, []⟩
    else if rem = 0 then ⟨res attempt, 1, []⟩
    else
      ⟨(retryGo res (attempt + 1) rem).result,
       (retryGo res (attempt + 1) rem).attemptsMade + 1,
       1 :: (retryGo res (attempt + 1) rem).sleeps⟩

/-- Embeds validate_xpath_with_retry from validator.py (default
max_retries 2) over a per-attempt result oracle. -/
def validate_xpath_with_retry (res : Nat → LiveResult) (maxRetries : Nat) : RetryTrace :=
  retryGo res 0 (maxRetries + 1)

/-- Characterization of the retry loop: it stops at the first attempt
whose result passes shouldReturn, or at the last permitted attempt,
returning that attempt's result, counting one call per attempt and one
recorded sleep between consecutive attempts. -/
theorem retryGo_spec (res : Nat → LiveResult) (attempt rem : Nat) (h : 0 < rem) :
    ∃ k, k < rem ∧
      (retryGo res attempt rem).result = res (attempt + k) ∧
      (retryGo res attempt rem).attemptsMade = k + 1 ∧
      (retryGo res attempt rem).sleeps = List.replicate k 1 ∧
      (∀ j, j < k → shouldReturn (res (attempt + j)) = false) ∧
      (shouldReturn (res (attempt + k)) = true ∨ k = rem - 1) := by
  induction rem generalizing attempt with
  | zero => omega
  | succ n ih =>
    by_cases hr : shouldReturn (res attempt) = true
    · refine ⟨0, by omega, ?_, ?_, ?_, ?_, ?_⟩
      · simp [retryGo, hr]
      · simp [retryGo, hr]
      · simp [retryGo, hr]
      · intro j hj
        omega
      · left
        simpa using hr
    · by_cases hn : n = 0
      · subst hn
        refine ⟨0, by omega, ?_, ?_, ?_, ?_, ?_⟩
        · simp [retryGo, hr]
        · simp [retryGo, hr]
        · simp [retryGo, hr]
        · intro j hj
          omega
        · right
          rfl
      · obtain ⟨k, hk, h1, h2, h3, h4, h5⟩ := ih (attempt + 1) (by omega)
        refine ⟨k + 1, by omega, ?_, ?_, ?_, ?_, ?_⟩
        · simp only [retryGo, if_neg hr, if_neg hn]
          rw [h1]
          congr 1
          omega
        · simp only [retryGo, if_neg hr, if_neg hn]
          rw [h2]
        · simp only [retryGo, if_neg hr, if_neg hn]
          rw [h3]
          rfl
        · intro j hj
          cases j with
          | zero => simpa using hr
          | succ j' =>
            have := h4 j' (by omega)
            rwa [show attempt + 1 + j' = attempt + (j' + 1) by omega] at this
        · rcases h5 with h5 | h5
          · left
            rwa [show attempt + 1 + k = attempt + (k + 1) by omega] at h5
          · right
            omega

/-- C5: the retry wrapper makes at most max_retries + 1 attempts (default
max_retries 2, so at most 3), returns exactly the dict produced by its
final attempt, records exactly one one-second sleep between consecutive
attempts, retried only on results whose error is not classified as an
evaluation error (a result with no error or an evaluation error is
returned immediately, with no further attempt), and when no attempt
qualifies for early return it exhausts all retries and returns the last
result. -/
theorem claim_C5 (res : Nat → LiveResult) (maxRetries : Nat) :
    1 ≤ (validate_xpath_with_retry res maxRetries).attemptsMade ∧
    (validate_xpath_with_retry res maxRetries).attemptsMade ≤ maxRetries + 1 ∧
    (validate_xpath_with_retry res maxRetries).result
      = res ((validate_xpath_with_retry res maxRetries).attemptsMade - 1) ∧
    (validate_xpath_with_retry res maxRetries).sleeps
      = List.replicate ((validate_xpath_with_retry res maxRetries).attemptsMade - 1) 1 ∧
    (∀ j, j + 1 < (validate_xpath_with_retry res maxRetries).attemptsMade →
      shouldReturn (res j) = false) ∧
    (shouldReturn
        (res ((validate_xpath_with_retry res maxRetries).attemptsMade - 1)) = true
      ∨ (validate_xpath_with_retry res maxRetries).attemptsMade = maxRetries + 1) := by
  obtain ⟨k, hk, h1, h2, h3, h4, h5⟩ :=
    retryGo_spec res 0 (maxRetries + 1) (by omega)
  unfold validate_xpath_with_retry
  rw [h1, h2, h3]
  simp only [Nat.add_sub_cancel, Nat.zero_add]
  refine ⟨by omega, by omega, by trivial, by trivial, ?_, ?_⟩
  · intro j hj
    have := h4 j (by omega)
    simpa using this
  · rcases h5 with h5 | h5
    · left
      simpa using h5
    · right
      omega

/-- A per-attempt oracle whose every result is a transient browser error. -/
def transientRes : Nat → LiveResult :=
  fun _ => ⟨false, 0, none, some "Browser error: timeout"⟩

/-- Witness for C5 at the default max_retries 2 with an always-transient
oracle: three attempts, two one-second sleeps, and the last attempt's
result returned. -/
theorem claim_C5_witness :
    (validate_xpath_with_retry transientRes 2).attemptsMade ≤ 3 ∧
    (validate_xpath_with_retry transientRes 2).sleeps = [1, 1] ∧
    (validate_xpath_with_retry transientRes 2).result = transientRes 2 := by
  have h := claim_C5 transientRes 2
  exact ⟨h.2.1, by decide, by decide⟩

/-- The invariant claimed for every Live Validator result. -/
def resultInvariant (r : LiveResult) : Prop :=
  (r.valid = true ↔ r.matchCount > 0) ∧
  (r.error ≠ none → r.valid = false ∧ r.matchCount = 0 ∧ r.elementInfo = none)

/-- C10: every result of the single-shot Live Validator and of its retry
wrapper satisfies: valid iff at least one match, and a non-null error
forces valid false, zero matches and null element info. -/
theorem claim_C10 :
    (∀ o : BrowserOutcome, resultInvariant (validate_xpath o)) ∧
    (∀ (outs : Nat → BrowserOutcome) (maxRetries : Nat),
      resultInvariant
        (validate_xpath_with_retry
          (fun n => validate_xpath (outs n)) maxRetries).result) := by
  have base : ∀ o : BrowserOutcome, resultInvariant (validate_xpath o) := by
    intro o
    cases o with
    | browserError m =>
      exact ⟨by simp [validate_xpath], fun _ => by simp [validate_xpath]⟩
    | evalError m =>
      exact ⟨by simp [validate_xpath], fun _ => by simp [validate_xpath]⟩
    | success c desc =>
      constructor
      · simp [validate_xpath]
      · intro he
        exact absurd rfl he
  refine ⟨base, ?_⟩
  intro outs maxRetries
  obtain ⟨k, _, h1, _⟩ :=
    retryGo_spec (fun n => validate_xpath (outs n)) 0 (maxRetries + 1) (by omega)
  unfold validate_xpath_with_retry
  rw [h1]
  exact base (outs (0 + k))

/-- Witness for C10 at a concrete evaluation-error outcome, discharging
the non-null-error hypothesis of the invariant. -/
theorem claim_C10_witness :
    (validate_xpath (.evalError "bad")).valid = false ∧
    (validate_xpath (.evalError "bad")).matchCount = 0 ∧
    (validate_xpath (.evalError "bad")).elementInfo = none :=
  (claim_C10.1 (.evalError "bad")).2 (by decide)

/-! ## src/backend/versions/robustness.py: the Robustness Tester -/

/-- The six mutation kinds, in the dict-insertion order of
RobustnessTester.mutations. -/
def mutationNames : List String :=
  ["whitespace", "classes", "siblings", "wrappers", "ids", "attributes"]

/-- Result of test_robustness: score, passed and failed kinds in loop
order, and the error fields of the failure-branch details dict (the
per-mutation result map of the success branch is diagnostic only and not
modelled). -/
structure RobustnessResult where
  score : Rat
  passed : List String
  failed : List String
  detailsError : Option String
  originalError : Option String
deriving Repr

/-- Embeds test_robustness from robustness.py over the baseline result of
test_xpath_on_html on the unmutated HTML (success flag, match count,
error message) and a per-mutation-kind outcome oracle (none embeds an
exception raised while mutating or testing that kind, some gives the
kind's test success flag and match count). When the baseline failed or
matched nothing, the function short-circuits with score zero and every
kind failed, consulting the mutation oracle not at all; otherwise each
kind passes iff its test succeeded with at least one match, and the score
is the passed fraction of the six kinds. -/
def test_robustness (baseline : Bool × Nat × Option String)
    (runMutation : String → Option (Bool × Nat)) : RobustnessResult :=
  if ¬ baseline.1 ∨ baseline.2.1 = 0 then
    ⟨0, [], mutationNames, some "XPath failed on original HTML", baseline.2.2⟩
  else
    ⟨(if mutationNames.length > 0 then
        ((mutationNames.filter (fun n =>
          match runMutation n with
          | some sc => sc.1 && decide (sc.2 > 0)
          | none => false)).length : Rat) / (mutationNames.length : Rat)
      else 0),
     mutationNames.filter (fun n =>
       match runMutation n with
       | some sc => sc.1 && decide (sc.2 > 0)
       | none => false),
     mutationNames.filter (fun n =>
       !(match runMutation n with
         | some sc => sc.1 && decide (sc.2 > 0)
         | none => false)),
     none, none⟩

/-- C4: the robustness score always lies in the unit interval; and
whenever the baseline run fails or matches zero elements, the score is
zero, all six mutation kinds are recorded as failed, and no mutation is
executed (the result does not depend on the mutation oracle at all). -/
theorem claim_C4 (baseline : Bool × Nat × Option String)
    (runMutation : String → Option (Bool × Nat)) :
    (0 ≤ (test_robustness baseline runMutation).score ∧
      (test_robustness baseline runMutation).score ≤ 1) ∧
    ((¬ baseline.1 = true ∨ baseline.2.1 = 0) →
      (test_robustness baseline runMutation).score = 0 ∧
      (test_robustness baseline runMutation).failed = mutationNames ∧
      ∀ other : String → Option (Bool × Nat),
        test_robustness baseline other = test_robustness baseline runMutation) := by
  by_cases hb : ¬ baseline.1 = true ∨ baseline.2.1 = 0
  · constructor
    · rw [test_robustness, if_pos hb]
      norm_num
    · intro _
      refine ⟨?_, ?_, ?_⟩
      · rw [test_robustness, if_pos hb]
      · rw [test_robustness, if_pos hb]
      · intro other
        rw [test_robustness, if_pos hb, test_robustness, if_pos hb]
  · constructor
    · rw [test_robustness, if_neg hb]
      dsimp only
      rw [if_pos (by norm_num [mutationNames])]
      constructor
      · apply div_nonneg
        · positivity
        · positivity
      · rw [div_le_one (by norm_num [mutationNames])]
        have hle := List.length_filter_le (fun n =>
          match runMutation n with
          | some sc => sc.1 && decide (sc.2 > 0)
          | none => false) mutationNames
        exact_mod_cast hle
    · intro hcond
      exact absurd hcond hb

/-- Witness for C4 at a concrete failing baseline: score zero, all six
kinds failed, and two different mutation oracles give identical results
(no mutation executed). -/
theorem claim_C4_witness :
    (test_robustness (false, 0, some "boom") (fun _ => none)).score = 0 ∧
    (test_robustness (false, 0, some "boom") (fun _ => none)).failed = mutationNames ∧
    test_robustness (false, 0, some "boom") (fun _ => some (true, 5))
      = test_robustness (false, 0, some "boom") (fun _ => none) := by
  have h := (claim_C4 (false, 0, some "boom") (fun _ => none)).2 (by simp)
  exact ⟨h.1, h.2.1, h.2.2 _⟩

/-! ## src/backend/versions/v2_validated.py: the Strategy Orchestrator -/

/-- The result dict of the v2 generate call (spec section 6 contract; the
process_log trace is diagnostic only, never used for control flow, and is
not modelled). -/
structure GenResult where
  xpath : String
  validated : Bool
  matchCount : Nat
  elementInfo : Option String
deriving DecidableEq, Repr

/-- Candidate loop of generate: run the Live Validator (with max_retries
zero) on each candidate in order and return on the first result that is
valid with a positive match count; the per-candidate exception handler of
the source only appends to the log and continues, which the total
validator oracle makes unreachable. -/
def tryCandidates (validator : String → LiveResult) : List String → Option GenResult
  | [] => none
  | x :: t =>
    if (validator x).valid && decide ((validator x).matchCount > 0) then
      some ⟨x, true, (validator x).matchCount, (validator x).elementInfo⟩
    else tryCandidates validator t

/-- Embeds the post-fetch body of generate from v2_validated.py over the
heuristic candidate list (generate_heuristic_xpaths applied to the
instruction), the LLM candidate list (the external text-generation
collaborator of spec section 6), and a Live Validator oracle: heuristic
candidates are tried in order, then LLM candidates, and when nothing
validates the fallback is the first LLM candidate if any, else the first
heuristic candidate, else the literal body selector, marked unvalidated.
The HTML fetch preceding this body re-raises network errors, but the
no-selector path below never raises. -/
def v2_generate (heuristicXpaths llmXpaths : List String)
    (validator : String → LiveResult) : GenResult :=
  match tryCandidates validator heuristicXpaths with
  | some r => r
  | none =>
    match tryCandidates validator llmXpaths with
    | some r => r
    | none =>
      ⟨llmXpaths.head?.getD (heuristicXpaths.head?.getD "//body"), false, 0, none⟩

/-- A Live Validator oracle on which every candidate fails transiently. -/
def failValidator : String → LiveResult :=
  fun _ => ⟨false, 0, none, some "Browser error: net::ERR_FAILED"⟩

/-- C1 counterexample: with one heuristic candidate produced first and one
LLM candidate produced second, neither validating, the orchestrator
returns the first LLM candidate rather than the first candidate ever
produced, refuting the first-ever-produced part of the claim (the
validated false part does hold). -/
theorem claim_C1_counterexample :
    (v2_generate ["//h"] ["//l"] failValidator).xpath = "//l" ∧
    (["//h"] ++ ["//l"]).head? = some "//h" ∧
    ("//l" : String) ≠ "//h" ∧
    (v2_generate ["//h"] ["//l"] failValidator).validated = false := by
  decide

/-- C1 amended: when no candidate validates, the orchestrator never raises
for the no-selector condition but returns a structured fallback marked
validated false whose selector is the first LLM candidate when the LLM
produced any, otherwise the first heuristic candidate, otherwise the
literal body selector. -/
theorem claim_C1_amended (heuristicXpaths llmXpaths : List String)
    (validator : String → LiveResult)
    (hv : ∀ x, ¬ ((validator x).valid = true ∧ (validator x).matchCount > 0)) :
    v2_generate heuristicXpaths llmXpaths validator
      = ⟨llmXpaths.head?.getD (heuristicXpaths.head?.getD "//body"),
         false, 0, none⟩ := by
  have hnone : ∀ l : List String, tryCandidates validator l = none := by
    intro l
    induction l with
    | nil => rfl
    | cons x t ih =>
      unfold tryCandidates
      have hc : ¬ ((validator x).valid && decide ((validator x).matchCount > 0)) = true := by
        intro hc
        rw [Bool.and_eq_true] at hc
        exact hv x ⟨hc.1, by simpa using hc.2⟩
      rw [if_neg hc, ih]
  rw [v2_generate, hnone, hnone]

/-- Witness for the amended C1 at concrete candidate lists and the
always-failing validator: the fallback is the first LLM candidate, marked
unvalidated. -/
theorem claim_C1_witness :
    v2_generate ["//h"] ["//l"] failValidator = ⟨"//l", false, 0, none⟩ :=
  claim_C1_amended ["//h"] ["//l"] failValidator
    (fun x h => by simp [failValidator] at h)
